import Mathlib

set_option maxRecDepth 4000

/-!
Shallow embedding of the two Zephir-generated C header fragments of the
cphalcon repository,
`ext/phalcon/translate/interpolator/associativearray.zep.h` and
`ext/phalcon/validation/validator/exclusionin.zep.h`: class-entry
declarations, method argument-info tables and method-registration tables,
together with the host-runtime behaviour the specification describes for
them (call-time argument validation, module-lifecycle class
initialization).
-/

/-- Zend scalar type codes appearing in the headers: `IS_STRING` and
`_IS_BOOL`. -/
inductive ZendType where
  | IS_STRING : ZendType
  | IS_BOOL : ZendType
  deriving DecidableEq, Repr

/-- One argument declaration inside a `ZEND_BEGIN_ARG_WITH_RETURN_TYPE_INFO_EX`
block, mirroring the three macro forms used in the headers:
`ZEND_ARG_INFO(pass_by_ref, name)` (untyped),
`ZEND_ARG_TYPE_INFO(pass_by_ref, name, type_hint, allow_null)` and
`ZEND_ARG_OBJ_INFO(pass_by_ref, name, classname, allow_null)`. -/
inductive ArgDecl where
  | ZEND_ARG_INFO (pass_by_ref : Nat) (name : String) : ArgDecl
  | ZEND_ARG_TYPE_INFO (pass_by_ref : Nat) (name : String) (type_hint : ZendType)
      (allow_null : Nat) : ArgDecl
  | ZEND_ARG_OBJ_INFO (pass_by_ref : Nat) (name : String) (classname : String)
      (allow_null : Nat) : ArgDecl
  deriving DecidableEq, Repr

/-- Name recorded for an argument declaration. -/
def ArgDecl.argName : ArgDecl → String
  | .ZEND_ARG_INFO _ n => n
  | .ZEND_ARG_TYPE_INFO _ n _ _ => n
  | .ZEND_ARG_OBJ_INFO _ n _ _ => n

/-- By-reference flag of an argument declaration (first macro argument). -/
def ArgDecl.passByRef : ArgDecl → Nat
  | .ZEND_ARG_INFO r _ => r
  | .ZEND_ARG_TYPE_INFO r _ _ _ => r
  | .ZEND_ARG_OBJ_INFO r _ _ _ => r

/-- Allow-null flag of an argument declaration; `none` for an untyped
`ZEND_ARG_INFO` argument, which carries no such flag. -/
def ArgDecl.allowNullFlag : ArgDecl → Option Nat
  | .ZEND_ARG_INFO _ _ => none
  | .ZEND_ARG_TYPE_INFO _ _ _ a => some a
  | .ZEND_ARG_OBJ_INFO _ _ _ a => some a

/-- Whether the argument declaration carries a type constraint (a scalar type
hint or an object class constraint). -/
def ArgDecl.hasTypeConstraint : ArgDecl → Bool
  | .ZEND_ARG_INFO _ _ => false
  | .ZEND_ARG_TYPE_INFO _ _ _ _ => true
  | .ZEND_ARG_OBJ_INFO _ _ _ _ => true

/-- An argument-info table, as produced by
`ZEND_BEGIN_ARG_WITH_RETURN_TYPE_INFO_EX(name, return_reference,
required_num_args, type, allow_null) ... ZEND_END_ARG_INFO()`.
`return_type` is `none` for tables built with the plain
`ZEND_BEGIN_ARG_INFO_EX` macro, which declares no return type. -/
structure ArgInfoTable where
  return_reference : Nat
  required_num_args : Nat
  return_type : Option ZendType
  return_allow_null : Option Nat
  args : List ArgDecl
  deriving DecidableEq, Repr

/-- Table `arginfo_phalcon_translate_interpolator_associativearray_replaceplaceholders`
from `associativearray.zep.h`. The `php72` flag selects the
`PHP_VERSION_ID >= 70200` branch of the header: at 7.2 and later the
`translation` argument carries the `IS_STRING` type hint, before 7.2 it is a
plain `ZEND_ARG_INFO`. In both branches the return type is `IS_STRING` with
allow-null 0 and the required argument count is 1. -/
def arginfo_phalcon_translate_interpolator_associativearray_replaceplaceholders
    (php72 : Bool) : ArgInfoTable where
  return_reference := 0
  required_num_args := 1
  return_type := some ZendType.IS_STRING
  return_allow_null := some 0
  args :=
    [if php72 then ArgDecl.ZEND_ARG_TYPE_INFO 0 "translation" ZendType.IS_STRING 0
     else ArgDecl.ZEND_ARG_INFO 0 "translation",
     ArgDecl.ZEND_ARG_INFO 0 "placeholders"]

/-- Table `arginfo_phalcon_validation_validator_exclusionin_validate` from
`exclusionin.zep.h`. Both preprocessor branches of the header produce this
same table (the pre-7.2 macro form only adds an explicit NULL return class
name): return type `_IS_BOOL` with allow-null 0, required argument count 2,
an object-typed first argument constrained to class Phalcon\Validation and an
untyped second argument `field`. -/
def arginfo_phalcon_validation_validator_exclusionin_validate : ArgInfoTable where
  return_reference := 0
  required_num_args := 2
  return_type := some ZendType.IS_BOOL
  return_allow_null := some 0
  args :=
    [ArgDecl.ZEND_ARG_OBJ_INFO 0 "validation" "Phalcon\\Validation" 0,
     ArgDecl.ZEND_ARG_INFO 0 "field"]

/-- Zend method access flags; the headers use only `ZEND_ACC_PUBLIC`. -/
inductive ZendAccFlag where
  | ZEND_ACC_PUBLIC : ZendAccFlag
  | ZEND_ACC_PROTECTED : ZendAccFlag
  | ZEND_ACC_PRIVATE : ZendAccFlag
  | ZEND_ACC_STATIC : ZendAccFlag
  deriving DecidableEq, Repr

/-- One `PHP_ME(classname, name, arg_info, flags)` method-registration
record. -/
structure PhpMe where
  classname : String
  methodName : String
  arg_info : ArgInfoTable
  flags : List ZendAccFlag
  deriving DecidableEq, Repr

/-- One entry of a method-registration table: a `PHP_ME` record or the
end-of-table sentinel `PHP_FE_END`. -/
inductive MethodTableEntry where
  | PHP_ME (e : PhpMe) : MethodTableEntry
  | PHP_FE_END : MethodTableEntry
  deriving DecidableEq, Repr

/-- Table `phalcon_translate_interpolator_associativearray_method_entry` from
`associativearray.zep.h`: one public method `replacePlaceholders` followed by
the `PHP_FE_END` sentinel. -/
def phalcon_translate_interpolator_associativearray_method_entry
    (php72 : Bool) : List MethodTableEntry :=
  [MethodTableEntry.PHP_ME
    { classname := "Phalcon_Translate_Interpolator_AssociativeArray"
      methodName := "replacePlaceholders"
      arg_info :=
        arginfo_phalcon_translate_interpolator_associativearray_replaceplaceholders php72
      flags := [ZendAccFlag.ZEND_ACC_PUBLIC] },
   MethodTableEntry.PHP_FE_END]

/-- Table `phalcon_validation_validator_exclusionin_method_entry` from
`exclusionin.zep.h`: one public method `validate` followed by the
`PHP_FE_END` sentinel. -/
def phalcon_validation_validator_exclusionin_method_entry :
    List MethodTableEntry :=
  [MethodTableEntry.PHP_ME
    { classname := "Phalcon_Validation_Validator_ExclusionIn"
      methodName := "validate"
      arg_info := arginfo_phalcon_validation_validator_exclusionin_validate
      flags := [ZendAccFlag.ZEND_ACC_PUBLIC] },
   MethodTableEntry.PHP_FE_END]

/-- One header fragment: the class-entry pointer declarations, the
`ZEPHIR_INIT_CLASS` declarations (one per registered class), the
`PHP_METHOD` declarations, and the method-registration tables it defines. -/
structure HeaderFragment where
  class_entry_pointers : List String
  init_class_decls : List String
  php_method_decls : List (String × String)
  method_tables : List (List MethodTableEntry)
  deriving DecidableEq, Repr

/-- Fragment `ext/phalcon/translate/interpolator/associativearray.zep.h`. -/
def associativearray_zep_h (php72 : Bool) : HeaderFragment where
  class_entry_pointers := ["phalcon_translate_interpolator_associativearray_ce"]
  init_class_decls := ["Phalcon_Translate_Interpolator_AssociativeArray"]
  php_method_decls :=
    [("Phalcon_Translate_Interpolator_AssociativeArray", "replacePlaceholders")]
  method_tables := [phalcon_translate_interpolator_associativearray_method_entry php72]

/-- Fragment `ext/phalcon/validation/validator/exclusionin.zep.h`. -/
def exclusionin_zep_h : HeaderFragment where
  class_entry_pointers := ["phalcon_validation_validator_exclusionin_ce"]
  init_class_decls := ["Phalcon_Validation_Validator_ExclusionIn"]
  php_method_decls := [("Phalcon_Validation_Validator_ExclusionIn", "validate")]
  method_tables := [phalcon_validation_validator_exclusionin_method_entry]

/-- Names recorded for the parameters of an argument-info table, in order. -/
def paramNames (t : ArgInfoTable) : List String :=
  t.args.map ArgDecl.argName

/-- Number of `PHP_ME` records in a method-registration table. -/
def countPhpMe (tbl : List MethodTableEntry) : Nat :=
  (tbl.filter fun e =>
    match e with
    | MethodTableEntry.PHP_ME _ => true
    | MethodTableEntry.PHP_FE_END => false).length

/-- The `PHP_ME` records of a method-registration table, in order. -/
def phpMeEntries (tbl : List MethodTableEntry) : List PhpMe :=
  tbl.filterMap fun e =>
    match e with
    | MethodTableEntry.PHP_ME m => some m
    | MethodTableEntry.PHP_FE_END => none

/-- All methods declared by the two fragments, for a given preprocessor
branch. -/
def allDeclaredMethods (php72 : Bool) : List PhpMe :=
  phpMeEntries (phalcon_translate_interpolator_associativearray_method_entry php72) ++
    phpMeEntries phalcon_validation_validator_exclusionin_method_entry

/-- All argument-info tables defined by the two fragments, over both
preprocessor branches. -/
def allArgInfoTables : List ArgInfoTable :=
  [arginfo_phalcon_translate_interpolator_associativearray_replaceplaceholders true,
   arginfo_phalcon_translate_interpolator_associativearray_replaceplaceholders false,
   arginfo_phalcon_validation_validator_exclusionin_validate]

/-- Modelled from the spec: values handled by the host runtime's call-time
argument validation (spec section 6); the host object system's implementation
is absent from the excerpt. An object value carries the list of class names
it is an instance of (its own class together with everything it inherits or
implements). -/
inductive PhpValue where
  | obj (instanceClasses : List String) : PhpValue
  | str (s : String) : PhpValue
  | intVal (n : Int) : PhpValue
  | boolVal (b : Bool) : PhpValue
  | nullVal : PhpValue
  deriving DecidableEq, Repr

/-- Modelled from the spec: the host's call-time check of one value against
one scalar type hint (spec section 6); that generic enforcement is absent
from the excerpt. -/
def typeAccepts : ZendType → PhpValue → Bool
  | ZendType.IS_STRING, PhpValue.str _ => true
  | ZendType.IS_BOOL, PhpValue.boolVal _ => true
  | _, _ => false

/-- Modelled from the spec: the host's call-time validation of one argument
value against its argument-info declaration (spec sections 6 and 7); that
generic enforcement is absent from the excerpt. An untyped parameter accepts
anything; a scalar-typed parameter accepts values of that type; an
object-typed parameter accepts exactly instances of the named class; a null
value is additionally accepted only when the allow-null flag is nonzero. -/
def argAccepts : ArgDecl → PhpValue → Bool
  | ArgDecl.ZEND_ARG_INFO _ _, _ => true
  | ArgDecl.ZEND_ARG_TYPE_INFO _ _ t a, v =>
      typeAccepts t v || (a != 0 && v == PhpValue.nullVal)
  | ArgDecl.ZEND_ARG_OBJ_INFO _ _ cls a, v =>
      match v with
      | PhpValue.obj cs => cs.contains cls
      | PhpValue.nullVal => a != 0
      | _ => false

/-- Events of the host module lifecycle. -/
inductive ModuleEvent where
  | load : ModuleEvent
  | unload : ModuleEvent
  deriving DecidableEq, Repr

/-- Phases of the host module lifecycle. -/
inductive ModulePhase where
  | unloaded : ModulePhase
  | loaded : ModulePhase
  deriving DecidableEq, Repr

/-- Modelled from the spec: class registration is performed once at module
load (spec section 5) and the class entries live from extension load to
extension unload (spec section 3); the host's module-initialization routine
itself is absent from the excerpt. Processing the event stream of a module
lifecycle emits, on the transition from unloaded to loaded, one
ZEPHIR_INIT_CLASS invocation per registered class; no other event runs an
initialization, so an already initialized class entry is never initialized
again. The result is the list of emitted class-initialization invocations. -/
def runLifecycle (registry : List String) :
    ModulePhase → List ModuleEvent → List String
  | _, [] => []
  | ModulePhase.unloaded, ModuleEvent.load :: es =>
      registry ++ runLifecycle registry ModulePhase.loaded es
  | ModulePhase.loaded, ModuleEvent.unload :: es =>
      runLifecycle registry ModulePhase.unloaded es
  | p, _ :: es => runLifecycle registry p es

/-- Modelled from the spec: one module lifecycle, created at extension load
and destroyed at extension unload (spec section 3). -/
def moduleLifecycle : List ModuleEvent :=
  [ModuleEvent.load, ModuleEvent.unload]

/-- Classes registered by the two fragments, for a given preprocessor
branch. -/
def phalconRegistry (php72 : Bool) : List String :=
  (associativearray_zep_h php72).init_class_decls ++
    exclusionin_zep_h.init_class_decls

/-- Shape of a method implementation signature: how many parameters the
implementation takes and what it returns. -/
structure ImplSignature where
  implParamCount : Nat
  implReturnType : ZendType
  deriving DecidableEq, Repr

/-- Modelled from the spec: the actual implementation signature of
replacePlaceholders, whose body is absent from the excerpt; spec section 4
gives the signature replacePlaceholders(translation, placeholders) and
describes it as token substitution in a string, hence two parameters and a
string result. -/
def replacePlaceholders_impl : ImplSignature where
  implParamCount := 2
  implReturnType := ZendType.IS_STRING

/-- Modelled from the spec: the actual implementation signature of validate,
whose body is absent from the excerpt; spec section 4 gives the signature
validate(validationContext, field) and describes it as checking that a
field's value is not in a disallowed set, hence two parameters and a boolean
result. -/
def validate_impl : ImplSignature where
  implParamCount := 2
  implReturnType := ZendType.IS_BOOL

/-- C1, counterexample: the claim that validate's parameters are named
validationContext and field fails on the code — the argument-info table of
validate does not record the name validationContext for its first
parameter. -/
theorem C1_counterexample_validate_param_names :
    ¬ paramNames arginfo_phalcon_validation_validator_exclusionin_validate =
        ["validationContext", "field"] := by
  decide

/-- C1, amended: the method validate of class
Phalcon_Validation_Validator_ExclusionIn is declared with exactly two
parameters whose names, in order, are validation and field. -/
theorem C1_validate_param_names :
    paramNames arginfo_phalcon_validation_validator_exclusionin_validate =
      ["validation", "field"] := by
  decide

/-- C2: the method replacePlaceholders of class
Phalcon_Translate_Interpolator_AssociativeArray is declared with exactly two
parameters whose names, in order, are translation and placeholders — in both
preprocessor branches of the header. -/
theorem C2_replaceplaceholders_param_names :
    paramNames
        (arginfo_phalcon_translate_interpolator_associativearray_replaceplaceholders
          true) = ["translation", "placeholders"] ∧
    paramNames
        (arginfo_phalcon_translate_interpolator_associativearray_replaceplaceholders
          false) = ["translation", "placeholders"] := by
  decide

/-- C3: every declared method's argument-info table records a parameter
count, a (nonempty) name for each parameter, and a declared return type;
concretely replacePlaceholders declares return type IS_STRING and validate
declares return type _IS_BOOL. -/
theorem C3_arginfo_records_shape :
    ((allDeclaredMethods true ++ allDeclaredMethods false).all fun m =>
        m.arg_info.return_type.isSome &&
        (m.arg_info.args.length == (paramNames m.arg_info).length) &&
        (paramNames m.arg_info).all (fun n => !n.isEmpty)) = true ∧
    (arginfo_phalcon_translate_interpolator_associativearray_replaceplaceholders
        true).return_type = some ZendType.IS_STRING ∧
    (arginfo_phalcon_translate_interpolator_associativearray_replaceplaceholders
        false).return_type = some ZendType.IS_STRING ∧
    arginfo_phalcon_validation_validator_exclusionin_validate.return_type =
      some ZendType.IS_BOOL := by
  decide

/-- C4: each of the two fragments registers exactly one class, and each
method-registration table contains exactly one PHP_ME entry, followed by the
PHP_FE_END sentinel as its last element — in both preprocessor branches. -/
theorem C4_one_class_one_method_entry :
    (associativearray_zep_h true).init_class_decls.length = 1 ∧
    (associativearray_zep_h false).init_class_decls.length = 1 ∧
    exclusionin_zep_h.init_class_decls.length = 1 ∧
    countPhpMe (phalcon_translate_interpolator_associativearray_method_entry true) = 1 ∧
    countPhpMe (phalcon_translate_interpolator_associativearray_method_entry false) = 1 ∧
    countPhpMe phalcon_validation_validator_exclusionin_method_entry = 1 ∧
    (phalcon_translate_interpolator_associativearray_method_entry true).getLast? =
      some MethodTableEntry.PHP_FE_END ∧
    (phalcon_translate_interpolator_associativearray_method_entry false).getLast? =
      some MethodTableEntry.PHP_FE_END ∧
    phalcon_validation_validator_exclusionin_method_entry.getLast? =
      some MethodTableEntry.PHP_FE_END := by
  decide

/-- C5: over one module lifecycle each class entry declared by the fragments
is initialized exactly once, and even on an event stream with a stray second
load the initialization of an already initialized class entry is never run a
second time. -/
theorem C5_init_class_once_per_lifecycle :
    (runLifecycle (phalconRegistry true) ModulePhase.unloaded
        moduleLifecycle).count "Phalcon_Translate_Interpolator_AssociativeArray" = 1 ∧
    (runLifecycle (phalconRegistry true) ModulePhase.unloaded
        moduleLifecycle).count "Phalcon_Validation_Validator_ExclusionIn" = 1 ∧
    (runLifecycle (phalconRegistry false) ModulePhase.unloaded
        moduleLifecycle).count "Phalcon_Translate_Interpolator_AssociativeArray" = 1 ∧
    (runLifecycle (phalconRegistry false) ModulePhase.unloaded
        moduleLifecycle).count "Phalcon_Validation_Validator_ExclusionIn" = 1 ∧
    (runLifecycle (phalconRegistry true) ModulePhase.unloaded
        [ModuleEvent.load, ModuleEvent.load, ModuleEvent.unload]).count
      "Phalcon_Translate_Interpolator_AssociativeArray" = 1 ∧
    (runLifecycle (phalconRegistry true) ModulePhase.unloaded
        [ModuleEvent.load, ModuleEvent.load, ModuleEvent.unload]).count
      "Phalcon_Validation_Validator_ExclusionIn" = 1 := by
  decide

/-- C6: for each declared method the argument count registered in its
argument-info table equals the parameter count of the implementation
signature, and the declared return type equals the implementation's return
type — in both preprocessor branches. -/
theorem C6_arginfo_matches_impl_signature :
    (arginfo_phalcon_translate_interpolator_associativearray_replaceplaceholders
        true).args.length = replacePlaceholders_impl.implParamCount ∧
    (arginfo_phalcon_translate_interpolator_associativearray_replaceplaceholders
        false).args.length = replacePlaceholders_impl.implParamCount ∧
    (arginfo_phalcon_translate_interpolator_associativearray_replaceplaceholders
        true).return_type = some replacePlaceholders_impl.implReturnType ∧
    (arginfo_phalcon_translate_interpolator_associativearray_replaceplaceholders
        false).return_type = some replacePlaceholders_impl.implReturnType ∧
    arginfo_phalcon_validation_validator_exclusionin_validate.args.length =
      validate_impl.implParamCount ∧
    arginfo_phalcon_validation_validator_exclusionin_validate.return_type =
      some validate_impl.implReturnType := by
  decide

/-- C7: every method registered by the two method-registration tables carries
the ZEND_ACC_PUBLIC access flag — in both preprocessor branches. -/
theorem C7_all_registered_methods_public :
    ((allDeclaredMethods true ++ allDeclaredMethods false).all fun m =>
        m.flags.contains ZendAccFlag.ZEND_ACC_PUBLIC) = true := by
  decide

/-- C8: replacePlaceholders declares 2 parameters but its required argument
count is only 1, while validate declares 2 parameters and its required
argument count is 2 — in both preprocessor branches. -/
theorem C8_required_arg_count_asymmetry :
    (arginfo_phalcon_translate_interpolator_associativearray_replaceplaceholders
        true).required_num_args = 1 ∧
    (arginfo_phalcon_translate_interpolator_associativearray_replaceplaceholders
        true).args.length = 2 ∧
    (arginfo_phalcon_translate_interpolator_associativearray_replaceplaceholders
        false).required_num_args = 1 ∧
    (arginfo_phalcon_translate_interpolator_associativearray_replaceplaceholders
        false).args.length = 2 ∧
    arginfo_phalcon_validation_validator_exclusionin_validate.required_num_args = 2 ∧
    arginfo_phalcon_validation_validator_exclusionin_validate.args.length = 2 := by
  decide

/-- C9: the first parameter of validate is declared as an object-typed
parameter constrained to class Phalcon\Validation, so the host's call-time
validation accepts a value for it exactly when the value is an instance of
Phalcon\Validation (rejecting every other value), while the second parameter
field carries no type constraint and every value is accepted for it. -/
theorem C9_validate_first_param_class_constraint :
    arginfo_phalcon_validation_validator_exclusionin_validate.args.head? =
      some (ArgDecl.ZEND_ARG_OBJ_INFO 0 "validation" "Phalcon\\Validation" 0) ∧
    (∀ v : PhpValue,
        argAccepts (ArgDecl.ZEND_ARG_OBJ_INFO 0 "validation" "Phalcon\\Validation" 0)
            v = true ↔
          ∃ cs, v = PhpValue.obj cs ∧ "Phalcon\\Validation" ∈ cs) ∧
    arginfo_phalcon_validation_validator_exclusionin_validate.args.get? 1 =
      some (ArgDecl.ZEND_ARG_INFO 0 "field") ∧
    (ArgDecl.ZEND_ARG_INFO 0 "field").hasTypeConstraint = false ∧
    (∀ v : PhpValue, argAccepts (ArgDecl.ZEND_ARG_INFO 0 "field") v = true) := by
  refine ⟨by decide, ?_, by decide, by decide, fun v => rfl⟩
  intro v
  cases v with
  | obj cs => simp [argAccepts, List.contains, List.elem_iff]
  | str s => simp [argAccepts]
  | intVal n => simp [argAccepts]
  | boolVal b => simp [argAccepts]
  | nullVal => simp [argAccepts]

/-- C10: every parameter declared in both argument-info tables is passed by
value (by-reference flag 0), and every allow-null flag attached to a declared
parameter type or return type is 0 — in both preprocessor branches. -/
theorem C10_by_value_and_non_nullable :
    (allArgInfoTables.all fun t =>
        t.args.all
          (fun a => (a.passByRef == 0) && (a.allowNullFlag.getD 0 == 0)) &&
        (t.return_allow_null.getD 0 == 0)) = true := by
  decide
